import Mathlib

/-!
Shallow embedding of the NYC Motor Vehicle Collisions Dashboard
(`app.py`): data preparation, filter predicates, the free-text query
parser, the search callback, and the per-report aggregation pipeline.
Definitions mirror the Python source; theorems settle the specified
properties.
-/

namespace NYCDash

/-- A parsed calendar date (the result of `str.to_date`); CSV string
parsing itself is out of scope, so rows carry `Option Date` directly. -/
structure Date where
  year : Nat
  month : Nat
  day : Nat
deriving DecidableEq

/-- A scalar value that can appear inside a Dash dropdown selection
list: a string (boroughs, vehicle types, person types, the "ALL"
sentinel) or an integer (years). -/
inductive SelV where
  | str (s : String)
  | int (n : Nat)
deriving DecidableEq

/-- A dynamically-typed value as delivered by a Dash dropdown or input:
a scalar string, a scalar integer, a flat list of scalars, or Python
`None`. -/
inductive Dyn where
  | str (s : String)
  | int (n : Nat)
  | vlist (l : List SelV)
  | pynone
deriving DecidableEq

/-- Python truthiness for the dynamic values above: empty string, zero,
empty list and `None` are falsy. -/
def Dyn.truthy : Dyn → Bool
  | .str s => decide (s ≠ "")
  | .int n => decide (n ≠ 0)
  | .vlist l => decide (l ≠ [])
  | .pynone => false

/-- Selection normalization from `update_dashboard`: the sentinel
scalar, a falsy value, or `None` becomes `["ALL"]`; a non-list scalar
becomes a one-element list; a list is kept as is. -/
def normalizeSel (v : Dyn) : List SelV :=
  if v = Dyn.str "ALL" ∨ v.truthy = false then [SelV.str "ALL"]
  else
    match v with
    | .vlist l => l
    | .str s => [SelV.str s]
    | .int n => [SelV.int n]
    | .pynone => [SelV.str "ALL"]

/-- Kleene three-valued OR, the semantics of `|` on nullable Boolean
columns in the dataframe engine. -/
def kor : Option Bool → Option Bool → Option Bool
  | some true, _ => some true
  | _, some true => some true
  | some false, some false => some false
  | _, _ => none

/-- `is_in` on a nullable string column: a null value yields a null
mask entry, a present value tests membership in the selection list. -/
def str_is_in (v : Option String) (sel : List SelV) : Option Bool :=
  v.map (fun s => decide (SelV.str s ∈ sel))

/-- `is_in` on a nullable integer column. -/
def nat_is_in (v : Option Nat) (sel : List SelV) : Option Bool :=
  v.map (fun y => decide (SelV.int y ∈ sel))

/-- `is_between(2015, 2025)` on the nullable derived YEAR column. -/
def year_between (v : Option Nat) : Option Bool :=
  v.map (fun y => decide (2015 ≤ y ∧ y ≤ 2025))

/-- Lookup of a dynamically-named column (vehicle-type / contributing
factor families) in a row's column store. -/
def getCol (vals : List (String × Option String)) (c : String) : Option String :=
  (vals.lookup c).join

/-- A raw crash-level row as scanned from the CSV, with dates already
parsed (`none` = null or unparseable).  Latitude/longitude values are
only ever tested for presence, so an integer stand-in carries them. -/
structure RawCrash where
  crashDate : Option Date
  hour : Option Nat
  borough : Option String
  latitude : Option Int
  longitude : Option Int
  injured : Option Nat
  killed : Option Nat
  vals : List (String × Option String)
deriving DecidableEq

/-- Season derivation from `crash_lazy`'s `when/then` chain: a null
month falls through every `is_in` branch to `otherwise(None)`. -/
def seasonOf : Option Nat → Option String
  | none => none
  | some m =>
    if m ∈ [12, 1, 2] then some "Winter"
    else if m ∈ [3, 4, 5] then some "Spring"
    else if m ∈ [6, 7, 8] then some "Summer"
    else if m ∈ [9, 10, 11] then some "Fall"
    else none

/-- A prepared crash row: the raw columns plus the derived
YEAR/MONTH/SEASON attributes. -/
structure CrashRow where
  crashDate : Option Date
  hour : Option Nat
  borough : Option String
  latitude : Option Int
  longitude : Option Int
  injured : Option Nat
  killed : Option Nat
  vals : List (String × Option String)
  year : Option Nat
  month : Option Nat
  season : Option String
deriving DecidableEq

/-- Derivation of YEAR/MONTH/SEASON for one crash row
(`with_columns` stages of `crash_lazy`). -/
def prepare_crash (r : RawCrash) : CrashRow :=
  let y := r.crashDate.map Date.year
  let m := r.crashDate.map Date.month
  { crashDate := r.crashDate
    hour := r.hour
    borough := r.borough
    latitude := r.latitude
    longitude := r.longitude
    injured := r.injured
    killed := r.killed
    vals := r.vals
    year := y
    month := m
    season := seasonOf m }

/-- The crash table after load-time preparation: derived columns plus
the `YEAR.is_between(2015, 2025)` filter (a null year gives a null mask
entry, which the filter drops). -/
def prepare_crash_table (raw : List RawCrash) : List CrashRow :=
  (raw.map prepare_crash).filter (fun r => year_between r.year == some true)

/-- A raw person-level row as scanned from the CSV. -/
structure RawPerson where
  crashDate : Option Date
  borough : Option String
  personType : Option String
  personAge : Option Int
deriving DecidableEq

/-- A prepared person row: raw columns plus the derived YEAR. -/
structure PersonRow where
  crashDate : Option Date
  borough : Option String
  personType : Option String
  personAge : Option Int
  year : Option Nat
deriving DecidableEq

/-- Derivation of YEAR for one person row. -/
def prepare_person (r : RawPerson) : PersonRow :=
  { crashDate := r.crashDate
    borough := r.borough
    personType := r.personType
    personAge := r.personAge
    year := r.crashDate.map Date.year }

/-- The person table after load-time preparation, including the
`YEAR.is_between(2015, 2025)` filter. -/
def prepare_person_table (raw : List RawPerson) : List PersonRow :=
  (raw.map prepare_person).filter (fun r => year_between r.year == some true)

/-- The startup Schema Catalog: the detected vehicle-type and
contributing-factor column families and the presence flags for the
fixed person-table columns. -/
structure Schema where
  vehicleCols : List String
  factorCols : List String
  hasPersonType : Bool
  hasPersonAge : Bool
deriving DecidableEq

/-- One string-typed dimension stage of a filter function: applied only
when the selection is non-empty and does not contain the "ALL"
sentinel; a row with a null value in the column is dropped. -/
def dim_str_filter {α : Type} (get : α → Option String) (sel : List SelV)
    (rows : List α) : List α :=
  if sel ≠ [] ∧ SelV.str "ALL" ∉ sel then
    rows.filter (fun r => str_is_in (get r) sel == some true)
  else rows

/-- One integer-typed dimension stage (the YEAR dimension). -/
def dim_nat_filter {α : Type} (get : α → Option Nat) (sel : List SelV)
    (rows : List α) : List α :=
  if sel ≠ [] ∧ SelV.str "ALL" ∉ sel then
    rows.filter (fun r => nat_is_in (get r) sel == some true)
  else rows

/-- The accumulated vehicle-type condition from `filter_crash_lazy`:
`cond = pl.lit(False)` OR-folded with `col.is_in(sel)` over every
detected vehicle column, in Kleene logic. -/
def veh_cond (cols : List String) (sel : List SelV) (r : CrashRow) : Option Bool :=
  cols.foldl (fun acc c => kor acc (str_is_in (getCol r.vals c) sel)) (some false)

/-- The vehicle-type stage of `filter_crash_lazy`: applied only when the
selection is active AND at least one vehicle column was detected. -/
def vehicle_filter (sc : Schema) (sel : List SelV) (rows : List CrashRow) :
    List CrashRow :=
  if sel ≠ [] ∧ SelV.str "ALL" ∉ sel ∧ sc.vehicleCols ≠ [] then
    rows.filter (fun r => veh_cond sc.vehicleCols sel r == some true)
  else rows

/-- `filter_crash_lazy`: borough, year and vehicle-type stages applied
in source order. -/
def filter_crash_lazy (sc : Schema) (bsel ysel vsel : List SelV)
    (rows : List CrashRow) : List CrashRow :=
  vehicle_filter sc vsel
    (dim_nat_filter (fun r => r.year) ysel
      (dim_str_filter (fun r => r.borough) bsel rows))

/-- The person-type stage of `filter_person_lazy`: applied only when the
selection is active AND the PERSON_TYPE column is present. -/
def person_type_filter (sc : Schema) (sel : List SelV) (rows : List PersonRow) :
    List PersonRow :=
  if sel ≠ [] ∧ SelV.str "ALL" ∉ sel ∧ sc.hasPersonType = true then
    rows.filter (fun r => str_is_in r.personType sel == some true)
  else rows

/-- `filter_person_lazy`: borough, year and person-type stages applied
in source order. -/
def filter_person_lazy (sc : Schema) (bsel ysel psel : List SelV)
    (rows : List PersonRow) : List PersonRow :=
  person_type_filter sc psel
    (dim_nat_filter (fun r => r.year) ysel
      (dim_str_filter (fun r => r.borough) bsel rows))

/-- Python `str.lower()` (ASCII), kept as an explicit character map so
terms reduce inside the kernel. -/
def py_lower (s : String) : String :=
  String.mk (s.data.map Char.toLower)

/-- Python's `in` operator on strings: contiguous-substring test. -/
def isSubstrB (needle hay : String) : Bool :=
  decide (needle.data <:+: hay.data)

/-- The known-value catalogs computed once at startup (`boroughs`,
`years`, `person_types` module globals). -/
structure Catalog where
  boroughs : List String
  years : List Nat
  person_types : List String
deriving DecidableEq

/-- The borough loop of `parse_search_query`: the first truthy
(non-empty) known borough whose lowercase form is a substring of the
lowercased query, as a one-element list. -/
def borough_match (cat : Catalog) (q : String) : Option (List String) :=
  (cat.boroughs.find? (fun b => decide (b ≠ "") && isSubstrB (py_lower b) q)).map
    (fun b => [b])

/-- The year loop of `parse_search_query`: the first known year whose
decimal string form is a substring of the lowercased query, as a
one-element list. -/
def year_match (cat : Catalog) (q : String) : Option (List Nat) :=
  (cat.years.find? (fun y => isSubstrB (toString y) q)).map (fun y => [y])

/-- The person-type rules of `parse_search_query`: all known person
types containing "pedestrian" when the query does, else all containing
"cyclist" or "bicyclist" when the query does, else unresolved. -/
def person_match (cat : Catalog) (q : String) : Option (List String) :=
  if isSubstrB "pedestrian" q then
    some (cat.person_types.filter (fun p => isSubstrB "pedestrian" (py_lower p)))
  else if isSubstrB "cyclist" q || isSubstrB "bicyclist" q then
    some (cat.person_types.filter
      (fun p => isSubstrB "cyclist" (py_lower p) || isSubstrB "bicyclist" (py_lower p)))
  else none

/-- `parse_search_query`: best-effort, per-dimension resolution of a
free-text query.  A falsy (absent or empty) query resolves nothing;
otherwise each dimension is resolved independently against the
lowercased query.  Vehicle type is never parsed. -/
def parse_search_query (cat : Catalog) (query : Option String) :
    Option (List String) × Option (List Nat) × Option (List String) :=
  match query with
  | none => (none, none, none)
  | some qs =>
    if qs = "" then (none, none, none)
    else
      (borough_match cat (py_lower qs), year_match cat (py_lower qs),
       person_match cat (py_lower qs))

/-- Which input fired the `handle_search` callback (`ctx.triggered`). -/
inductive Trigger where
  | noTrigger
  | clearBtn
  | searchInput
deriving DecidableEq

/-- Python `parsed or current` on a parser result: `None` and the empty
list are falsy, so they keep the current dropdown value; a non-empty
parsed list replaces it. -/
def pyOr {α : Type} (parsed : Option (List α)) (inj : α → SelV) (current : Dyn) : Dyn :=
  match parsed with
  | some (x :: xs) => Dyn.vlist ((x :: xs).map inj)
  | _ => current

/-- Truthiness of the search-input value (`None` and `""` are falsy). -/
def truthyQuery : Option String → Bool
  | none => false
  | some s => decide (s ≠ "")

/-- `handle_search`: the callback updating the borough, year and
person-type dropdowns from the search box and the Clear button. -/
def handle_search (cat : Catalog) (t : Trigger) (search_query : Option String)
    (current_borough current_year current_person : Dyn) : Dyn × Dyn × Dyn :=
  match t with
  | .noTrigger => (current_borough, current_year, current_person)
  | .clearBtn => (Dyn.str "ALL", Dyn.str "ALL", Dyn.str "ALL")
  | .searchInput =>
    if truthyQuery search_query then
      let m := parse_search_query cat search_query
      (pyOr m.1 SelV.str current_borough,
       pyOr m.2.1 SelV.int current_year,
       pyOr m.2.2 SelV.str current_person)
    else (current_borough, current_year, current_person)

/-- The values held by the four filter dropdowns. -/
structure DashFilters where
  borough : Dyn
  year : Dyn
  vehicle : Dyn
  person : Dyn
deriving DecidableEq

/-- The effect of one `handle_search` invocation on the dropdown state:
the callback's Output list names only the borough, year and person-type
dropdowns, so the vehicle-type dropdown keeps its value. -/
def apply_search_callback (cat : Catalog) (t : Trigger) (q : Option String)
    (st : DashFilters) : DashFilters :=
  let m := handle_search cat t q st.borough st.year st.person
  { borough := m.1, year := m.2.1, vehicle := st.vehicle, person := m.2.2 }

/-- A per-view result: either computed data or the explicit
"data not available" annotation figure. -/
inductive ViewResult (α : Type) where
  | available (a : α)
  | unavailable
deriving DecidableEq

/-- Stable insertion sort by a Boolean "may precede" relation (the
engine's sort; tie order among equal keys is not load-bearing). -/
def insertLe {α : Type} (le : α → α → Bool) (x : α) : List α → List α
  | [] => [x]
  | y :: ys => if le x y then x :: y :: ys else y :: insertLe le x ys

/-- Sort a list with `insertLe`. -/
def sortLe {α : Type} (le : α → α → Bool) : List α → List α
  | [] => []
  | x :: xs => insertLe le x (sortLe le xs)

/-- `groupby(key).count()`: one entry per distinct key in first-seen
order (null keys form their own group, as in the engine). -/
def groupCountBy {α β : Type} [DecidableEq β] (key : α → β) (rows : List α) :
    List (β × Nat) :=
  ((rows.map key).dedup).map (fun k => (k, rows.countP (fun r => decide (key r = k))))

/-- Sort grouped counts descending by count. -/
def sortCountDesc {β : Type} (g : List (β × Nat)) : List (β × Nat) :=
  sortLe (fun a b => decide (b.2 ≤ a.2)) g

/-- Summary stats: row count and null-as-zero sums of the injured and
killed columns. -/
def summary_of (rows : List CrashRow) : Nat × Nat × Nat :=
  (rows.length,
   (rows.map (fun r => r.injured.getD 0)).sum,
   (rows.map (fun r => r.killed.getD 0)).sum)

/-- Temporal view: crashes per year, ascending by year. -/
def temporal_view (rows : List CrashRow) : List (Option Nat × Nat) :=
  sortLe (fun a b => decide (a.1.getD 0 ≤ b.1.getD 0))
    (groupCountBy (fun r => r.year) rows)

/-- Borough view: crashes per borough, descending by count. -/
def borough_view (rows : List CrashRow) : List (Option String × Nat) :=
  sortCountDesc (groupCountBy (fun r => r.borough) rows)

/-- Hour view: crashes per hour of day, ascending by hour. -/
def hour_view (rows : List CrashRow) : List (Option Nat × Nat) :=
  sortLe (fun a b => decide (a.1.getD 0 ≤ b.1.getD 0))
    (groupCountBy (fun r => r.hour) rows)

/-- Victim view: top 5 person types by count. -/
def victim_view (rows : List PersonRow) : List (Option String × Nat) :=
  (sortCountDesc (groupCountBy (fun r => r.personType) rows)).take 5

/-- Factors view: top 10 values of the first contributing-factor
column. -/
def factors_view (c : String) (rows : List CrashRow) : List (Option String × Nat) :=
  (sortCountDesc (groupCountBy (fun r => getCol r.vals c) rows)).take 10

/-- Vehicle view: top 10 values of the first vehicle-type column. -/
def vehicle_view (c : String) (rows : List CrashRow) : List (Option String × Nat) :=
  (sortCountDesc (groupCountBy (fun r => getCol r.vals c) rows)).take 10

/-- The coordinate-bearing subset used by the map view: rows with both
latitude and longitude present. -/
def coord_rows (rows : List CrashRow) : List CrashRow :=
  rows.filter (fun r => r.latitude.isSome && r.longitude.isSome)

/-- The configured map-sample bound (`min(2000, map_count)` in the
source). -/
def MAP_SAMPLE_MAX : Nat := 2000

/-- Map view: when any coordinate-bearing row survives the filter, draw
`min(2000, map_count)` rows via the engine's without-replacement
sampler; otherwise the no-data annotation (an empty sample). -/
def map_view (sampler : List CrashRow → Nat → List CrashRow)
    (rows : List CrashRow) : List CrashRow :=
  if 0 < (coord_rows rows).length then
    sampler (coord_rows rows) (min MAP_SAMPLE_MAX (coord_rows rows).length)
  else []

/-- Seasonal view: crashes per season, reordered to the fixed
Spring/Summer/Fall/Winter order (entries outside the fixed category
list sort last, as with the pandas categorical). -/
def season_index (s : Option String) : Nat :=
  match s with
  | some "Spring" => 0
  | some "Summer" => 1
  | some "Fall" => 2
  | some "Winter" => 3
  | _ => 4

/-- Seasonal view body. -/
def seasonal_view (rows : List CrashRow) : List (Option String × Nat) :=
  sortLe (fun a b => decide (season_index a.1 ≤ season_index b.1))
    (groupCountBy (fun r => r.season) rows)

/-- English weekday name for `strftime("%A")`, via days-from-epoch
(1970-01-01 was a Thursday). -/
def weekday_name (d : Date) : String :=
  let y : Int := if d.month ≤ 2 then (d.year : Int) - 1 else (d.year : Int)
  let era : Int := (if 0 ≤ y then y else y - 399) / 400
  let yoe : Int := y - era * 400
  let mp : Int := if 2 < d.month then (d.month : Int) - 3 else (d.month : Int) + 9
  let doy : Int := (153 * mp + 2) / 5 + (d.day : Int) - 1
  let doe : Int := yoe * 365 + yoe / 4 - yoe / 100 + doy
  let days : Int := era * 146097 + doe - 719468
  match ((days + 4) % 7).toNat with
  | 0 => "Sunday"
  | 1 => "Monday"
  | 2 => "Tuesday"
  | 3 => "Wednesday"
  | 4 => "Thursday"
  | 5 => "Friday"
  | _ => "Saturday"

/-- Heatmap view: crashes grouped by (hour, weekday name). -/
def heatmap_view (rows : List CrashRow) : List ((Option Nat × Option String) × Nat) :=
  groupCountBy (fun r => (r.hour, r.crashDate.map weekday_name)) rows

/-- Age view: the raw PERSON_AGE values with nulls dropped and the
strict `0 < age < 120` domain enforced. -/
def age_view (rows : List PersonRow) : List Int :=
  rows.filterMap (fun r => r.personAge.bind
    (fun a => if 0 < a ∧ a < 120 then some a else none))

/-- The eleven outputs of one report generation. -/
structure Report where
  summary : Nat × Nat × Nat
  temporal : List (Option Nat × Nat)
  boroughChart : List (Option String × Nat)
  hourChart : List (Option Nat × Nat)
  victim : ViewResult (List (Option String × Nat))
  factors : ViewResult (List (Option String × Nat))
  vehicle : ViewResult (List (Option String × Nat))
  mapSample : List CrashRow
  seasonal : List (Option String × Nat)
  heatmap : List ((Option Nat × Option String) × Nat)
  age : ViewResult (List Int)
deriving DecidableEq

/-- `update_dashboard`: normalize the four dropdown values, filter both
tables once, and compute the summary plus the ten views; the views
depending on an optional column family degrade to the unavailable
marker when that family is absent from the schema. -/
def update_dashboard (sampler : List CrashRow → Nat → List CrashRow)
    (sc : Schema) (b y v p : Dyn)
    (crashRows : List CrashRow) (personRows : List PersonRow) : Report :=
  let bsel := normalizeSel b
  let ysel := normalizeSel y
  let vsel := normalizeSel v
  let psel := normalizeSel p
  let crash_lf := filter_crash_lazy sc bsel ysel vsel crashRows
  let person_lf := filter_person_lazy sc bsel ysel psel personRows
  { summary := summary_of crash_lf
    temporal := temporal_view crash_lf
    boroughChart := borough_view crash_lf
    hourChart := hour_view crash_lf
    victim :=
      if sc.hasPersonType then ViewResult.available (victim_view person_lf)
      else ViewResult.unavailable
    factors :=
      match sc.factorCols with
      | [] => ViewResult.unavailable
      | c :: _ => ViewResult.available (factors_view c crash_lf)
    vehicle :=
      match sc.vehicleCols with
      | [] => ViewResult.unavailable
      | c :: _ => ViewResult.available (vehicle_view c crash_lf)
    mapSample := map_view sampler crash_lf
    seasonal := seasonal_view crash_lf
    heatmap := heatmap_view crash_lf
    age :=
      if sc.hasPersonAge then ViewResult.available (age_view person_lf)
      else ViewResult.unavailable }

/-- The concrete startup catalogs of the deployed dataset (five borough
names sorted ascending, the bounded year range, and the person-type
values), used to instantiate the parser examples. -/
def nycCatalog : Catalog :=
  { boroughs := ["BRONX", "BROOKLYN", "MANHATTAN", "QUEENS", "STATEN ISLAND"]
    years := [2015, 2016, 2017, 2018, 2019, 2020, 2021, 2022, 2023, 2024, 2025]
    person_types := ["Bicyclist", "Occupant", "Pedestrian"] }

/-! ## Helper lemmas -/

/-- Kleene OR is true exactly when one operand is true. -/
theorem kor_eq_true_iff (a b : Option Bool) :
    kor a b = some true ↔ a = some true ∨ b = some true := by
  rcases a with _ | _ | _ <;> rcases b with _ | _ | _ <;> simp [kor]

/-- `is_in` on a nullable string is true exactly when the value is
present and selected. -/
theorem str_is_in_eq_true_iff (v : Option String) (sel : List SelV) :
    str_is_in v sel = some true ↔ ∃ s, v = some s ∧ SelV.str s ∈ sel := by
  rcases v with _ | s <;> simp [str_is_in]

/-- The folded vehicle condition, generalized over the accumulator. -/
theorem veh_cond_foldl (cols : List String) (sel : List SelV) (r : CrashRow)
    (acc : Option Bool) :
    cols.foldl (fun a c => kor a (str_is_in (getCol r.vals c) sel)) acc = some true ↔
      acc = some true ∨ ∃ c ∈ cols, ∃ v, getCol r.vals c = some v ∧ SelV.str v ∈ sel := by
  induction cols generalizing acc with
  | nil => simp
  | cons c cs ih =>
    rw [List.foldl_cons, ih, kor_eq_true_iff, str_is_in_eq_true_iff]
    constructor
    · rintro ((h | ⟨v, hv, hsel⟩) | ⟨c2, hc2, hv⟩)
      · exact Or.inl h
      · exact Or.inr ⟨c, by simp, v, hv, hsel⟩
      · exact Or.inr ⟨c2, by simp [hc2], hv⟩
    · rintro (h | ⟨c2, hc2, hv⟩)
      · exact Or.inl (Or.inl h)
      · rcases List.mem_cons.mp hc2 with rfl | hc2
        · exact Or.inl (Or.inr hv)
        · exact Or.inr ⟨c2, hc2, hv⟩

/-- The vehicle condition is true exactly when some detected vehicle
column holds a selected value. -/
theorem veh_cond_eq_true_iff (cols : List String) (sel : List SelV) (r : CrashRow) :
    veh_cond cols sel r = some true ↔
      ∃ c ∈ cols, ∃ v, getCol r.vals c = some v ∧ SelV.str v ∈ sel := by
  rw [veh_cond, veh_cond_foldl]
  simp

/-- A string-dimension stage with the sentinel selected applies no
predicate. -/
theorem dim_str_filter_all {α : Type} (get : α → Option String) (sel : List SelV)
    (rows : List α) (h : SelV.str "ALL" ∈ sel) :
    dim_str_filter get sel rows = rows := by
  rw [dim_str_filter, if_neg]
  rintro ⟨-, hno⟩
  exact hno h

/-- An integer-dimension stage with the sentinel selected applies no
predicate. -/
theorem dim_nat_filter_all {α : Type} (get : α → Option Nat) (sel : List SelV)
    (rows : List α) (h : SelV.str "ALL" ∈ sel) :
    dim_nat_filter get sel rows = rows := by
  rw [dim_nat_filter, if_neg]
  rintro ⟨-, hno⟩
  exact hno h

/-- The vehicle stage with the sentinel selected applies no predicate. -/
theorem vehicle_filter_all (sc : Schema) (sel : List SelV) (rows : List CrashRow)
    (h : SelV.str "ALL" ∈ sel) :
    vehicle_filter sc sel rows = rows := by
  rw [vehicle_filter, if_neg]
  rintro ⟨-, hno, -⟩
  exact hno h

/-- The vehicle stage with no detected vehicle columns applies no
predicate. -/
theorem vehicle_filter_no_cols (sc : Schema) (sel : List SelV) (rows : List CrashRow)
    (h : sc.vehicleCols = []) :
    vehicle_filter sc sel rows = rows := by
  rw [vehicle_filter, if_neg]
  rintro ⟨-, -, hc⟩
  exact hc h

/-- The person-type stage with the sentinel selected applies no
predicate. -/
theorem person_type_filter_all (sc : Schema) (sel : List SelV) (rows : List PersonRow)
    (h : SelV.str "ALL" ∈ sel) :
    person_type_filter sc sel rows = rows := by
  rw [person_type_filter, if_neg]
  rintro ⟨-, hno, -⟩
  exact hno h

/-- The person-type stage with PERSON_TYPE absent from the schema
applies no predicate. -/
theorem person_type_filter_no_col (sc : Schema) (sel : List SelV) (rows : List PersonRow)
    (h : sc.hasPersonType = false) :
    person_type_filter sc sel rows = rows := by
  rw [person_type_filter, if_neg]
  rintro ⟨-, -, hc⟩
  rw [h] at hc
  exact absurd hc (by simp)

/-- Each string-dimension stage only removes rows. -/
theorem dim_str_filter_sublist {α : Type} (get : α → Option String) (sel : List SelV)
    (rows : List α) : List.Sublist (dim_str_filter get sel rows) rows := by
  rw [dim_str_filter]
  split
  · exact List.filter_sublist rows
  · exact List.Sublist.refl rows

/-- Each integer-dimension stage only removes rows. -/
theorem dim_nat_filter_sublist {α : Type} (get : α → Option Nat) (sel : List SelV)
    (rows : List α) : List.Sublist (dim_nat_filter get sel rows) rows := by
  rw [dim_nat_filter]
  split
  · exact List.filter_sublist rows
  · exact List.Sublist.refl rows

/-- The vehicle stage only removes rows. -/
theorem vehicle_filter_sublist (sc : Schema) (sel : List SelV) (rows : List CrashRow) :
    List.Sublist (vehicle_filter sc sel rows) rows := by
  rw [vehicle_filter]
  split
  · exact List.filter_sublist rows
  · exact List.Sublist.refl rows

/-- The person-type stage only removes rows. -/
theorem person_type_filter_sublist (sc : Schema) (sel : List SelV)
    (rows : List PersonRow) : List.Sublist (person_type_filter sc sel rows) rows := by
  rw [person_type_filter]
  split
  · exact List.filter_sublist rows
  · exact List.Sublist.refl rows

/-- `filter_crash_lazy` only removes rows. -/
theorem filter_crash_lazy_sublist (sc : Schema) (bsel ysel vsel : List SelV)
    (rows : List CrashRow) : List.Sublist (filter_crash_lazy sc bsel ysel vsel rows) rows := by
  exact ((vehicle_filter_sublist sc vsel _).trans
    (dim_nat_filter_sublist _ ysel _)).trans (dim_str_filter_sublist _ bsel rows)

/-- `filter_person_lazy` only removes rows. -/
theorem filter_person_lazy_sublist (sc : Schema) (bsel ysel psel : List SelV)
    (rows : List PersonRow) : List.Sublist (filter_person_lazy sc bsel ysel psel rows) rows := by
  exact ((person_type_filter_sublist sc psel _).trans
    (dim_nat_filter_sublist _ ysel _)).trans (dim_str_filter_sublist _ bsel rows)

/-- `x` is the first element of `l` satisfying `p`: everything before
it fails the predicate. -/
def FirstMatch {α : Type} (p : α → Bool) (l : List α) (x : α) : Prop :=
  ∃ l₁ l₂, l = l₁ ++ x :: l₂ ∧ p x = true ∧ ∀ y ∈ l₁, p y = false

/-- `List.find?` returns exactly the first match. -/
theorem find?_eq_some_iff_firstMatch {α : Type} (p : α → Bool) (l : List α) (x : α) :
    l.find? p = some x ↔ FirstMatch p l x := by
  induction l with
  | nil =>
    simp only [List.find?_nil, FirstMatch]
    constructor
    · intro h
      exact absurd h (by simp)
    · rintro ⟨l₁, l₂, h, -, -⟩
      exact absurd h (by simp)
  | cons a t ih =>
    rw [List.find?_cons]
    rcases hpa : p a with _ | _
    · simp only [ih, FirstMatch]
      constructor
      · rintro ⟨l₁, l₂, rfl, hx, hall⟩
        refine ⟨a :: l₁, l₂, rfl, hx, ?_⟩
        intro y hy
        rcases List.mem_cons.mp hy with rfl | hy
        · exact hpa
        · exact hall y hy
      · rintro ⟨l₁, l₂, heq, hx, hall⟩
        rcases l₁ with _ | ⟨b, l₁⟩
        · simp only [List.nil_append] at heq
          rw [List.cons.injEq] at heq
          rw [heq.1] at hpa
          rw [hpa] at hx
          exact absurd hx (by simp)
        · rw [List.cons_append, List.cons.injEq] at heq
          exact ⟨l₁, l₂, heq.2, hx, fun y hy => hall y (by simp [hy])⟩
    · constructor
      · rintro h
        rw [Option.some.injEq] at h
        exact ⟨[], t, by simp [h], h ▸ hpa, by simp⟩
      · rintro ⟨l₁, l₂, heq, hx, hall⟩
        rcases l₁ with _ | ⟨b, l₁⟩
        · simp only [List.nil_append] at heq
          rw [List.cons.injEq] at heq
          rw [heq.1]
        · rw [List.cons_append, List.cons.injEq] at heq
          have := hall b (by simp)
          rw [heq.1] at hpa
          rw [this] at hpa
          exact absurd hpa (by simp)

/-! ## Claim theorems -/

/-- C5: the season derivation is a total, deterministic function of the
month: 12, 1, 2 map to Winter, 3 through 5 to Spring, 6 through 8 to
Summer, 9 through 11 to Fall, and an absent month yields the null
fallback. -/
theorem season_mapping_total :
    seasonOf (some 1) = some "Winter" ∧ seasonOf (some 2) = some "Winter" ∧
    seasonOf (some 3) = some "Spring" ∧ seasonOf (some 4) = some "Spring" ∧
    seasonOf (some 5) = some "Spring" ∧ seasonOf (some 6) = some "Summer" ∧
    seasonOf (some 7) = some "Summer" ∧ seasonOf (some 8) = some "Summer" ∧
    seasonOf (some 9) = some "Fall" ∧ seasonOf (some 10) = some "Fall" ∧
    seasonOf (some 11) = some "Fall" ∧ seasonOf (some 12) = some "Winter" ∧
    seasonOf none = none := by
  decide

/-- C2 counterexample: starting from a state whose vehicle-type
dropdown holds `["Sedan"]`, the Clear action leaves that selection in
place, so the post-clear Filter Model does not have `vehicle_types =
ALL`. -/
theorem clear_keeps_vehicle_counterexample :
    (apply_search_callback nycCatalog Trigger.clearBtn none
        { borough := Dyn.vlist [SelV.str "BROOKLYN"], year := Dyn.int 2022,
          vehicle := Dyn.vlist [SelV.str "Sedan"], person := Dyn.str "ALL" }).vehicle
        ≠ Dyn.str "ALL" ∧
    normalizeSel (apply_search_callback nycCatalog Trigger.clearBtn none
        { borough := Dyn.vlist [SelV.str "BROOKLYN"], year := Dyn.int 2022,
          vehicle := Dyn.vlist [SelV.str "Sedan"], person := Dyn.str "ALL" }).vehicle
        = [SelV.str "Sedan"] := by
  decide

/-- C2 (amended): after the Clear action the borough, year and
person-type selections equal the ALL sentinel regardless of prior
state, while the vehicle-type selection is left unchanged (the clear
callback does not output to the vehicle-type dropdown). -/
theorem clear_resets_three_dimensions (cat : Catalog) (q : Option String)
    (st : DashFilters) :
    apply_search_callback cat Trigger.clearBtn q st =
      { borough := Dyn.str "ALL", year := Dyn.str "ALL",
        vehicle := st.vehicle, person := Dyn.str "ALL" } := by
  rfl

/-- C9: on every dimension of both filter functions, a selection list
containing the "ALL" sentinel alongside specific values is treated
exactly like the pure ALL selection: no predicate is applied on that
dimension. -/
theorem all_sentinel_dominates (sc : Schema) (bsel ysel vsel psel : List SelV)
    (crashRows : List CrashRow) (personRows : List PersonRow) :
    (SelV.str "ALL" ∈ bsel →
      filter_crash_lazy sc bsel ysel vsel crashRows =
        filter_crash_lazy sc [SelV.str "ALL"] ysel vsel crashRows) ∧
    (SelV.str "ALL" ∈ ysel →
      filter_crash_lazy sc bsel ysel vsel crashRows =
        filter_crash_lazy sc bsel [SelV.str "ALL"] vsel crashRows) ∧
    (SelV.str "ALL" ∈ vsel →
      filter_crash_lazy sc bsel ysel vsel crashRows =
        filter_crash_lazy sc bsel ysel [SelV.str "ALL"] crashRows) ∧
    (SelV.str "ALL" ∈ bsel →
      filter_person_lazy sc bsel ysel psel personRows =
        filter_person_lazy sc [SelV.str "ALL"] ysel psel personRows) ∧
    (SelV.str "ALL" ∈ ysel →
      filter_person_lazy sc bsel ysel psel personRows =
        filter_person_lazy sc bsel [SelV.str "ALL"] psel personRows) ∧
    (SelV.str "ALL" ∈ psel →
      filter_person_lazy sc bsel ysel psel personRows =
        filter_person_lazy sc bsel ysel [SelV.str "ALL"] personRows) := by
  have hall : SelV.str "ALL" ∈ [SelV.str "ALL"] := by simp
  refine ⟨fun h => ?_, fun h => ?_, fun h => ?_, fun h => ?_, fun h => ?_, fun h => ?_⟩
  · rw [filter_crash_lazy, filter_crash_lazy,
      dim_str_filter_all _ _ _ h, dim_str_filter_all _ _ _ hall]
  · rw [filter_crash_lazy, filter_crash_lazy,
      dim_nat_filter_all _ _ _ h, dim_nat_filter_all _ _ _ hall]
  · rw [filter_crash_lazy, filter_crash_lazy,
      vehicle_filter_all _ _ _ h, vehicle_filter_all _ _ _ hall]
  · rw [filter_person_lazy, filter_person_lazy,
      dim_str_filter_all _ _ _ h, dim_str_filter_all _ _ _ hall]
  · rw [filter_person_lazy, filter_person_lazy,
      dim_nat_filter_all _ _ _ h, dim_nat_filter_all _ _ _ hall]
  · rw [filter_person_lazy, filter_person_lazy,
      person_type_filter_all _ _ _ h, person_type_filter_all _ _ _ hall]

/-- C9 witness: with the mixed selection `["ALL", "BROOKLYN"]` on the
borough dimension the crash filter equals the pure-ALL filter. -/
theorem all_sentinel_dominates_witness :
    filter_crash_lazy ⟨["V1"], [], true, true⟩
        [SelV.str "ALL", SelV.str "BROOKLYN"] [SelV.str "ALL"] [SelV.str "ALL"] [] =
      filter_crash_lazy ⟨["V1"], [], true, true⟩
        [SelV.str "ALL"] [SelV.str "ALL"] [SelV.str "ALL"] [] :=
  (all_sentinel_dominates ⟨["V1"], [], true, true⟩
    [SelV.str "ALL", SelV.str "BROOKLYN"] [SelV.str "ALL"] [SelV.str "ALL"]
    [SelV.str "ALL"] [] []).1 (by decide)

/-- C10: when the schema lacks the relevant column family, a non-ALL
selection on that dimension is silently dropped: with no detected
vehicle-type columns the crash filter ignores any vehicle selection,
and with PERSON_TYPE absent the person filter ignores any person-type
selection. -/
theorem missing_family_drops_filter (sc : Schema) (bsel ysel vsel psel : List SelV)
    (crashRows : List CrashRow) (personRows : List PersonRow) :
    (sc.vehicleCols = [] →
      filter_crash_lazy sc bsel ysel vsel crashRows =
        filter_crash_lazy sc bsel ysel [SelV.str "ALL"] crashRows) ∧
    (sc.hasPersonType = false →
      filter_person_lazy sc bsel ysel psel personRows =
        filter_person_lazy sc bsel ysel [SelV.str "ALL"] personRows) := by
  constructor
  · intro h
    rw [filter_crash_lazy, filter_crash_lazy,
      vehicle_filter_no_cols _ _ _ h, vehicle_filter_all _ _ _ (by simp)]
  · intro h
    rw [filter_person_lazy, filter_person_lazy,
      person_type_filter_no_col _ _ _ h, person_type_filter_all _ _ _ (by simp)]

/-- C10 witness: with an empty vehicle-column family and PERSON_TYPE
absent, concrete non-ALL vehicle and person selections filter exactly
like ALL. -/
theorem missing_family_drops_filter_witness :
    (filter_crash_lazy ⟨[], ["F1"], false, true⟩
        [SelV.str "ALL"] [SelV.str "ALL"] [SelV.str "Sedan"] [] =
      filter_crash_lazy ⟨[], ["F1"], false, true⟩
        [SelV.str "ALL"] [SelV.str "ALL"] [SelV.str "ALL"] []) ∧
    (filter_person_lazy ⟨[], ["F1"], false, true⟩
        [SelV.str "ALL"] [SelV.str "ALL"] [SelV.str "Pedestrian"] [] =
      filter_person_lazy ⟨[], ["F1"], false, true⟩
        [SelV.str "ALL"] [SelV.str "ALL"] [SelV.str "ALL"] []) :=
  ⟨(missing_family_drops_filter ⟨[], ["F1"], false, true⟩
      [SelV.str "ALL"] [SelV.str "ALL"] [SelV.str "Sedan"] [SelV.str "Pedestrian"]
      [] []).1 rfl,
   (missing_family_drops_filter ⟨[], ["F1"], false, true⟩
      [SelV.str "ALL"] [SelV.str "ALL"] [SelV.str "Sedan"] [SelV.str "Pedestrian"]
      [] []).2 rfl⟩

/-- C1: with at least one detected vehicle column, the vehicle-type
filter is a disjunction across every detected vehicle column: a crash
row survives a non-ALL vehicle selection exactly when at least one of
its vehicle-type columns holds a selected value (so a row whose vehicle
columns are all null never matches). -/
theorem vehicle_filter_disjunction (sc : Schema) (vsel : List SelV)
    (rows : List CrashRow) (r : CrashRow)
    (hc : sc.vehicleCols ≠ []) (hv : vsel ≠ []) (hA : SelV.str "ALL" ∉ vsel) :
    r ∈ filter_crash_lazy sc [SelV.str "ALL"] [SelV.str "ALL"] vsel rows ↔
      r ∈ rows ∧ ∃ c ∈ sc.vehicleCols, ∃ v, getCol r.vals c = some v ∧
        SelV.str v ∈ vsel := by
  rw [filter_crash_lazy, dim_str_filter_all _ _ _ (by simp),
    dim_nat_filter_all _ _ _ (by simp), vehicle_filter, if_pos ⟨hv, hA, hc⟩,
    List.mem_filter]
  simp only [beq_iff_eq, veh_cond_eq_true_iff]

/-- C1 witness: the crash whose two vehicle columns hold
`["Sedan", null]` matches the selection `{"Sedan", "Truck"}`, via the
disjunction characterization. -/
theorem vehicle_filter_disjunction_witness :
    (⟨none, none, none, none, none, none, none,
        [("V1", some "Sedan"), ("V2", none)], some 2020, none, none⟩ : CrashRow) ∈
      filter_crash_lazy ⟨["V1", "V2"], [], true, true⟩
        [SelV.str "ALL"] [SelV.str "ALL"] [SelV.str "Sedan", SelV.str "Truck"]
        [⟨none, none, none, none, none, none, none,
            [("V1", some "Sedan"), ("V2", none)], some 2020, none, none⟩,
         ⟨none, none, none, none, none, none, none,
            [("V1", none), ("V2", none)], some 2020, none, none⟩] :=
  (vehicle_filter_disjunction ⟨["V1", "V2"], [], true, true⟩
      [SelV.str "Sedan", SelV.str "Truck"]
      [⟨none, none, none, none, none, none, none,
          [("V1", some "Sedan"), ("V2", none)], some 2020, none, none⟩,
       ⟨none, none, none, none, none, none, none,
          [("V1", none), ("V2", none)], some 2020, none, none⟩]
      ⟨none, none, none, none, none, none, none,
          [("V1", some "Sedan"), ("V2", none)], some 2020, none, none⟩
      (by decide) (by decide) (by decide)).mpr
    ⟨by decide, "V1", by decide, "Sedan", by decide, by decide⟩

/-- Rows surviving the year-range predicate carry a present year inside
the inclusive 2015 to 2025 bound. -/
theorem year_between_spec (v : Option Nat) (h : (year_between v == some true) = true) :
    ∃ y, v = some y ∧ 2015 ≤ y ∧ y ≤ 2025 := by
  rcases v with _ | y
  · simp [year_between] at h
  · refine ⟨y, rfl, ?_⟩
    simp [year_between] at h
    exact h

/-- C7: both tables are restricted at load time to the inclusive year
range 2015 to 2025; every row of the filtered crash table and of the
filtered person table (from which all eleven outputs are computed)
carries a present derived year inside the bound, for every filter. -/
theorem year_bound_invariant (sc : Schema) (bsel ysel vsel psel : List SelV)
    (rawC : List RawCrash) (rawP : List RawPerson) (r : CrashRow) (q : PersonRow) :
    (r ∈ filter_crash_lazy sc bsel ysel vsel (prepare_crash_table rawC) →
      ∃ y, r.year = some y ∧ 2015 ≤ y ∧ y ≤ 2025) ∧
    (q ∈ filter_person_lazy sc bsel ysel psel (prepare_person_table rawP) →
      ∃ y, q.year = some y ∧ 2015 ≤ y ∧ y ≤ 2025) := by
  constructor
  · intro hmem
    have h2 : r ∈ prepare_crash_table rawC :=
      (filter_crash_lazy_sublist sc bsel ysel vsel _).subset hmem
    rw [prepare_crash_table, List.mem_filter] at h2
    exact year_between_spec _ h2.2
  · intro hmem
    have h2 : q ∈ prepare_person_table rawP :=
      (filter_person_lazy_sublist sc bsel ysel psel _).subset hmem
    rw [prepare_person_table, List.mem_filter] at h2
    exact year_between_spec _ h2.2

/-- C7 witness: a concrete 2020 crash row and person row survive
preparation and an all-ALL filter, and the theorem certifies their
derived years lie in the bound. -/
theorem year_bound_invariant_witness :
    (∃ y, (prepare_crash ⟨some ⟨2020, 6, 15⟩, none, some "BROOKLYN", none, none,
        none, none, []⟩).year = some y ∧ 2015 ≤ y ∧ y ≤ 2025) ∧
    (∃ y, (prepare_person ⟨some ⟨2020, 6, 15⟩, some "BROOKLYN", some "Pedestrian",
        some 30⟩).year = some y ∧ 2015 ≤ y ∧ y ≤ 2025) :=
  ⟨(year_bound_invariant ⟨[], [], true, true⟩ [SelV.str "ALL"] [SelV.str "ALL"]
      [SelV.str "ALL"] [SelV.str "ALL"]
      [⟨some ⟨2020, 6, 15⟩, none, some "BROOKLYN", none, none, none, none, []⟩] []
      (prepare_crash ⟨some ⟨2020, 6, 15⟩, none, some "BROOKLYN", none, none,
        none, none, []⟩)
      (prepare_person ⟨some ⟨2020, 6, 15⟩, some "BROOKLYN", some "Pedestrian",
        some 30⟩)).1 (by decide),
   (year_bound_invariant ⟨[], [], true, true⟩ [SelV.str "ALL"] [SelV.str "ALL"]
      [SelV.str "ALL"] [SelV.str "ALL"] []
      [⟨some ⟨2020, 6, 15⟩, some "BROOKLYN", some "Pedestrian", some 30⟩]
      (prepare_crash ⟨some ⟨2020, 6, 15⟩, none, some "BROOKLYN", none, none,
        none, none, []⟩)
      (prepare_person ⟨some ⟨2020, 6, 15⟩, some "BROOKLYN", some "Pedestrian",
        some 30⟩)).2 (by decide)⟩

/-- C6: for every filter and any without-replacement sampler, the map
sample is drawn from the coordinate-bearing subset of the filtered
crash rows, its size is exactly `min(2000, count_with_coords)`, and
when at most 2000 such rows exist they are all returned. -/
theorem map_sample_size_invariant (sampler : List CrashRow → Nat → List CrashRow)
    (hs : ∀ l n, n ≤ l.length →
      (sampler l n).length = n ∧ List.Sublist (sampler l n) l)
    (sc : Schema) (b y v p : Dyn)
    (crashRows : List CrashRow) (personRows : List PersonRow) :
    ((update_dashboard sampler sc b y v p crashRows personRows).mapSample).length =
      min MAP_SAMPLE_MAX (coord_rows (filter_crash_lazy sc (normalizeSel b)
        (normalizeSel y) (normalizeSel v) crashRows)).length ∧
    List.Sublist (update_dashboard sampler sc b y v p crashRows personRows).mapSample
      (coord_rows (filter_crash_lazy sc (normalizeSel b) (normalizeSel y)
        (normalizeSel v) crashRows)) ∧
    ((coord_rows (filter_crash_lazy sc (normalizeSel b) (normalizeSel y)
        (normalizeSel v) crashRows)).length ≤ MAP_SAMPLE_MAX →
      (update_dashboard sampler sc b y v p crashRows personRows).mapSample =
        coord_rows (filter_crash_lazy sc (normalizeSel b) (normalizeSel y)
          (normalizeSel v) crashRows)) := by
  have hms : (update_dashboard sampler sc b y v p crashRows personRows).mapSample =
      map_view sampler (filter_crash_lazy sc (normalizeSel b) (normalizeSel y)
        (normalizeSel v) crashRows) := rfl
  rw [hms, map_view]
  by_cases hpos :
      0 < (coord_rows (filter_crash_lazy sc (normalizeSel b) (normalizeSel y)
        (normalizeSel v) crashRows)).length
  · rw [if_pos hpos]
    have h := hs _ _ (Nat.min_le_right MAP_SAMPLE_MAX
      (coord_rows (filter_crash_lazy sc (normalizeSel b) (normalizeSel y)
        (normalizeSel v) crashRows)).length)
    refine ⟨h.1, h.2, fun hle => ?_⟩
    exact h.2.eq_of_length (by rw [h.1, Nat.min_eq_right hle])
  · rw [if_neg hpos]
    have h0 : (coord_rows (filter_crash_lazy sc (normalizeSel b) (normalizeSel y)
        (normalizeSel v) crashRows)).length = 0 := Nat.eq_zero_of_not_pos hpos
    have hnil : coord_rows (filter_crash_lazy sc (normalizeSel b) (normalizeSel y)
        (normalizeSel v) crashRows) = [] := List.length_eq_zero.mp h0
    refine ⟨by rw [h0]; simp, by rw [hnil], fun _ => by rw [hnil]⟩

/-- C6 witness: with the take-first sampler (a valid
without-replacement sample) and a single coordinate-bearing row, the
sample size equals `min(2000, 1)`. -/
theorem map_sample_size_invariant_witness :
    ((update_dashboard (fun l n => l.take n) ⟨["V1"], [], true, true⟩
        (Dyn.str "ALL") (Dyn.str "ALL") (Dyn.str "ALL") (Dyn.str "ALL")
        [⟨none, none, none, some 40, some (-73), none, none, [], some 2020,
          none, none⟩] []).mapSample).length =
      min MAP_SAMPLE_MAX (coord_rows (filter_crash_lazy ⟨["V1"], [], true, true⟩
        (normalizeSel (Dyn.str "ALL")) (normalizeSel (Dyn.str "ALL"))
        (normalizeSel (Dyn.str "ALL"))
        [⟨none, none, none, some 40, some (-73), none, none, [], some 2020,
          none, none⟩])).length :=
  (map_sample_size_invariant (fun l n => l.take n)
    (fun l n h => ⟨by rw [List.length_take]; exact Nat.min_eq_left h,
      List.take_sublist n l⟩)
    ⟨["V1"], [], true, true⟩ (Dyn.str "ALL") (Dyn.str "ALL") (Dyn.str "ALL")
    (Dyn.str "ALL")
    [⟨none, none, none, some 40, some (-73), none, none, [], some 2020,
      none, none⟩] []).1

/-- C8: a report is always produced with all eleven fields; each view
depending on an absent column family (PERSON_TYPE, contributing-factor
columns, vehicle-type columns, PERSON_AGE) yields the explicit
unavailable marker, while the summary and every view not depending on
that family is still computed from the filtered tables. -/
theorem schema_absence_contained (sampler : List CrashRow → Nat → List CrashRow)
    (sc : Schema) (b y v p : Dyn)
    (crashRows : List CrashRow) (personRows : List PersonRow) :
    (sc.hasPersonType = false →
      (update_dashboard sampler sc b y v p crashRows personRows).victim =
        ViewResult.unavailable) ∧
    (sc.factorCols = [] →
      (update_dashboard sampler sc b y v p crashRows personRows).factors =
        ViewResult.unavailable) ∧
    (sc.vehicleCols = [] →
      (update_dashboard sampler sc b y v p crashRows personRows).vehicle =
        ViewResult.unavailable) ∧
    (sc.hasPersonAge = false →
      (update_dashboard sampler sc b y v p crashRows personRows).age =
        ViewResult.unavailable) ∧
    (update_dashboard sampler sc b y v p crashRows personRows).summary =
      summary_of (filter_crash_lazy sc (normalizeSel b) (normalizeSel y)
        (normalizeSel v) crashRows) ∧
    (update_dashboard sampler sc b y v p crashRows personRows).temporal =
      temporal_view (filter_crash_lazy sc (normalizeSel b) (normalizeSel y)
        (normalizeSel v) crashRows) ∧
    (update_dashboard sampler sc b y v p crashRows personRows).boroughChart =
      borough_view (filter_crash_lazy sc (normalizeSel b) (normalizeSel y)
        (normalizeSel v) crashRows) ∧
    (update_dashboard sampler sc b y v p crashRows personRows).hourChart =
      hour_view (filter_crash_lazy sc (normalizeSel b) (normalizeSel y)
        (normalizeSel v) crashRows) ∧
    (update_dashboard sampler sc b y v p crashRows personRows).mapSample =
      map_view sampler (filter_crash_lazy sc (normalizeSel b) (normalizeSel y)
        (normalizeSel v) crashRows) ∧
    (update_dashboard sampler sc b y v p crashRows personRows).seasonal =
      seasonal_view (filter_crash_lazy sc (normalizeSel b) (normalizeSel y)
        (normalizeSel v) crashRows) ∧
    (update_dashboard sampler sc b y v p crashRows personRows).heatmap =
      heatmap_view (filter_crash_lazy sc (normalizeSel b) (normalizeSel y)
        (normalizeSel v) crashRows) := by
  refine ⟨fun h => ?_, fun h => ?_, fun h => ?_, fun h => ?_,
    rfl, rfl, rfl, rfl, rfl, rfl, rfl⟩
  · simp [update_dashboard, h]
  · simp [update_dashboard, h]
  · simp [update_dashboard, h]
  · simp [update_dashboard, h]

/-- C8 witness: with every optional column family absent, the four
dependent views are unavailable while the summary is still computed. -/
theorem schema_absence_contained_witness :
    (update_dashboard (fun l n => l.take n) ⟨[], [], false, false⟩
        (Dyn.str "ALL") (Dyn.str "ALL") (Dyn.str "ALL") (Dyn.str "ALL")
        [] []).victim = ViewResult.unavailable ∧
    (update_dashboard (fun l n => l.take n) ⟨[], [], false, false⟩
        (Dyn.str "ALL") (Dyn.str "ALL") (Dyn.str "ALL") (Dyn.str "ALL")
        [] []).factors = ViewResult.unavailable ∧
    (update_dashboard (fun l n => l.take n) ⟨[], [], false, false⟩
        (Dyn.str "ALL") (Dyn.str "ALL") (Dyn.str "ALL") (Dyn.str "ALL")
        [] []).vehicle = ViewResult.unavailable ∧
    (update_dashboard (fun l n => l.take n) ⟨[], [], false, false⟩
        (Dyn.str "ALL") (Dyn.str "ALL") (Dyn.str "ALL") (Dyn.str "ALL")
        [] []).age = ViewResult.unavailable ∧
    (update_dashboard (fun l n => l.take n) ⟨[], [], false, false⟩
        (Dyn.str "ALL") (Dyn.str "ALL") (Dyn.str "ALL") (Dyn.str "ALL")
        [] []).summary = summary_of (filter_crash_lazy ⟨[], [], false, false⟩
          (normalizeSel (Dyn.str "ALL")) (normalizeSel (Dyn.str "ALL"))
          (normalizeSel (Dyn.str "ALL")) []) :=
  ⟨(schema_absence_contained (fun l n => l.take n) ⟨[], [], false, false⟩
      (Dyn.str "ALL") (Dyn.str "ALL") (Dyn.str "ALL") (Dyn.str "ALL") [] []).1 rfl,
   (schema_absence_contained (fun l n => l.take n) ⟨[], [], false, false⟩
      (Dyn.str "ALL") (Dyn.str "ALL") (Dyn.str "ALL") (Dyn.str "ALL") [] []).2.1 rfl,
   (schema_absence_contained (fun l n => l.take n) ⟨[], [], false, false⟩
      (Dyn.str "ALL") (Dyn.str "ALL") (Dyn.str "ALL") (Dyn.str "ALL") [] []).2.2.1 rfl,
   (schema_absence_contained (fun l n => l.take n) ⟨[], [], false, false⟩
      (Dyn.str "ALL") (Dyn.str "ALL") (Dyn.str "ALL") (Dyn.str "ALL") [] []).2.2.2.1 rfl,
   (schema_absence_contained (fun l n => l.take n) ⟨[], [], false, false⟩
      (Dyn.str "ALL") (Dyn.str "ALL") (Dyn.str "ALL") (Dyn.str "ALL") [] []).2.2.2.2.1⟩

/-- C3: the parser resolves each dimension independently by
case-insensitive substring matching with first-match-wins: the borough
component is the first known borough whose lowercase form occurs in the
lowercased query, the year component the first known year whose decimal
form occurs in it, and the person component follows the
pedestrian-then-cyclist keyword rules; a falsy query resolves nothing,
and `parse("Brooklyn 2022 pedestrian crashes")` over the deployed
catalogs gives `(["BROOKLYN"], [2022], ["Pedestrian"])`. -/
theorem parser_first_match (cat : Catalog) (qs : String) (q : String) :
    parse_search_query cat none = (none, none, none) ∧
    parse_search_query cat (some "") = (none, none, none) ∧
    (qs ≠ "" → parse_search_query cat (some qs) =
      (borough_match cat (py_lower qs), year_match cat (py_lower qs),
       person_match cat (py_lower qs))) ∧
    (∀ b, borough_match cat q = some [b] ↔
      FirstMatch (fun c => decide (c ≠ "") && isSubstrB (py_lower c) q)
        cat.boroughs b) ∧
    (borough_match cat q = none ↔
      ∀ b ∈ cat.boroughs, (decide (b ≠ "") && isSubstrB (py_lower b) q) = false) ∧
    (∀ y, year_match cat q = some [y] ↔
      FirstMatch (fun y2 => isSubstrB (toString y2) q) cat.years y) ∧
    (year_match cat q = none ↔
      ∀ y ∈ cat.years, isSubstrB (toString y) q = false) ∧
    (isSubstrB "pedestrian" q = true →
      person_match cat q =
        some (cat.person_types.filter (fun p => isSubstrB "pedestrian" (py_lower p)))) ∧
    (isSubstrB "pedestrian" q = false →
      (isSubstrB "cyclist" q || isSubstrB "bicyclist" q) = true →
      person_match cat q =
        some (cat.person_types.filter
          (fun p => isSubstrB "cyclist" (py_lower p) ||
            isSubstrB "bicyclist" (py_lower p)))) ∧
    ((isSubstrB "pedestrian" q || isSubstrB "cyclist" q ||
        isSubstrB "bicyclist" q) = false →
      person_match cat q = none) ∧
    parse_search_query nycCatalog (some "Brooklyn 2022 pedestrian crashes") =
      (some ["BROOKLYN"], some [2022], some ["Pedestrian"]) := by
  refine ⟨rfl, rfl, fun hns => ?_, fun b => ?_, ?_, fun y => ?_, ?_,
    fun h1 => ?_, fun h1 h2 => ?_, fun h3 => ?_, by decide⟩
  · rw [parse_search_query, if_neg hns]
  · rw [borough_match]
    constructor
    · intro h
      rw [Option.map_eq_some'] at h
      obtain ⟨a, ha, hab⟩ := h
      rw [List.cons.injEq] at hab
      obtain ⟨rfl, -⟩ := hab
      exact (find?_eq_some_iff_firstMatch _ _ _).mp ha
    · intro h
      rw [Option.map_eq_some']
      exact ⟨b, (find?_eq_some_iff_firstMatch _ _ _).mpr h, rfl⟩
  · rw [borough_match, Option.map_eq_none', List.find?_eq_none]
    simp
  · rw [year_match]
    constructor
    · intro h
      rw [Option.map_eq_some'] at h
      obtain ⟨a, ha, hab⟩ := h
      rw [List.cons.injEq] at hab
      obtain ⟨rfl, -⟩ := hab
      exact (find?_eq_some_iff_firstMatch _ _ _).mp ha
    · intro h
      rw [Option.map_eq_some']
      exact ⟨y, (find?_eq_some_iff_firstMatch _ _ _).mpr h, rfl⟩
  · rw [year_match, Option.map_eq_none', List.find?_eq_none]
    simp
  · rw [person_match, if_pos h1]
  · rw [person_match, if_neg (by simp [h1]), if_pos h2]
  · rw [Bool.or_eq_false_iff, Bool.or_eq_false_iff] at h3
    rw [person_match, if_neg (by simp [h3.1.1]), if_neg (by simp [h3.1.2, h3.2])]

/-- C3 witness: over the deployed catalogs, the non-empty query
"Brooklyn 2022 pedestrian crashes" parses through the per-dimension
component functions. -/
theorem parser_first_match_witness :
    parse_search_query nycCatalog (some "Brooklyn 2022 pedestrian crashes") =
      (borough_match nycCatalog (py_lower "Brooklyn 2022 pedestrian crashes"),
       year_match nycCatalog (py_lower "Brooklyn 2022 pedestrian crashes"),
       person_match nycCatalog (py_lower "Brooklyn 2022 pedestrian crashes")) :=
  (parser_first_match nycCatalog "Brooklyn 2022 pedestrian crashes"
    (py_lower "Brooklyn 2022 pedestrian crashes")).2.2.1 (by decide)

/-- C4: merge semantics of a search submission: a dimension the parser
leaves unresolved or resolves to an empty list keeps the caller's
current dropdown value, a parsed non-empty list replaces it, and a
falsy (absent or empty) query leaves all three dimensions exactly as
they were. -/
theorem search_merge_semantics (cat : Catalog) (q : Option String) (cb cy cp : Dyn) :
    (truthyQuery q = false →
      handle_search cat Trigger.searchInput q cb cy cp = (cb, cy, cp)) ∧
    (truthyQuery q = true →
      ((((parse_search_query cat q).1 = none ∨ (parse_search_query cat q).1 = some []) →
        (handle_search cat Trigger.searchInput q cb cy cp).1 = cb) ∧
      (∀ x l, (parse_search_query cat q).1 = some (x :: l) →
        (handle_search cat Trigger.searchInput q cb cy cp).1 =
          Dyn.vlist ((x :: l).map SelV.str)) ∧
      (((parse_search_query cat q).2.1 = none ∨
          (parse_search_query cat q).2.1 = some []) →
        (handle_search cat Trigger.searchInput q cb cy cp).2.1 = cy) ∧
      (∀ x l, (parse_search_query cat q).2.1 = some (x :: l) →
        (handle_search cat Trigger.searchInput q cb cy cp).2.1 =
          Dyn.vlist ((x :: l).map SelV.int)) ∧
      (((parse_search_query cat q).2.2 = none ∨
          (parse_search_query cat q).2.2 = some []) →
        (handle_search cat Trigger.searchInput q cb cy cp).2.2 = cp) ∧
      (∀ x l, (parse_search_query cat q).2.2 = some (x :: l) →
        (handle_search cat Trigger.searchInput q cb cy cp).2.2 =
          Dyn.vlist ((x :: l).map SelV.str)))) := by
  constructor
  · intro h
    simp [handle_search, h]
  · intro h
    refine ⟨?_, ?_, ?_, ?_, ?_, ?_⟩
    · rintro (hp | hp) <;> simp [handle_search, h, pyOr, hp]
    · intro x l hp
      simp [handle_search, h, pyOr, hp]
    · rintro (hp | hp) <;> simp [handle_search, h, pyOr, hp]
    · intro x l hp
      simp [handle_search, h, pyOr, hp]
    · rintro (hp | hp) <;> simp [handle_search, h, pyOr, hp]
    · intro x l hp
      simp [handle_search, h, pyOr, hp]

/-- C4 witness: submitting "pedestrian" keeps the current borough and
year selections (unresolved dimensions) and replaces the person-type
selection with the parsed `["Pedestrian"]`. -/
theorem search_merge_semantics_witness :
    (handle_search nycCatalog Trigger.searchInput (some "pedestrian")
      (Dyn.str "ALL") (Dyn.int 5) (Dyn.str "X")).1 = Dyn.str "ALL" ∧
    (handle_search nycCatalog Trigger.searchInput (some "pedestrian")
      (Dyn.str "ALL") (Dyn.int 5) (Dyn.str "X")).2.1 = Dyn.int 5 ∧
    (handle_search nycCatalog Trigger.searchInput (some "pedestrian")
      (Dyn.str "ALL") (Dyn.int 5) (Dyn.str "X")).2.2 =
        Dyn.vlist [SelV.str "Pedestrian"] :=
  ⟨((search_merge_semantics nycCatalog (some "pedestrian")
      (Dyn.str "ALL") (Dyn.int 5) (Dyn.str "X")).2 (by decide)).1
    (Or.inl (by decide)),
   ((search_merge_semantics nycCatalog (some "pedestrian")
      (Dyn.str "ALL") (Dyn.int 5) (Dyn.str "X")).2 (by decide)).2.2.1
    (Or.inl (by decide)),
   ((search_merge_semantics nycCatalog (some "pedestrian")
      (Dyn.str "ALL") (Dyn.int 5) (Dyn.str "X")).2 (by decide)).2.2.2.2.2
    "Pedestrian" [] (by decide)⟩

end NYCDash
